import Mathlib

/-!
# Verification of the serverless chat client core
  (src/serverless_chat_app/static/index.js)

Shallow embedding of the non-cosmetic core of `index.js`: the message
normalizer, the deduplicating message store, the WebSocket connection
manager's backoff logic, and the session coordinator operations
(login history handling, send).  JavaScript values are modelled by the
inductive `JSValue`; the DOM, CSS and rendering scaffolding are elided
(they never feed back into the data the claims are about).
-/

/-- A JavaScript value, as far as the chat core manipulates them.
`vNaN` models the NaN number (produced by `new Date(x).getTime()` on
un-parseable input); all other numbers reachable in the core are
modelled as integers. -/
inductive JSValue where
  | vUndefined
  | vNull
  | vNaN
  | vBool (b : Bool)
  | vNum (n : Int)
  | vStr (s : String)
  | vArr (elems : List JSValue)
  | vObj (fields : List (String × JSValue))
deriving Repr

namespace JSValue

mutual
/-- Structural equality test on `JSValue` (the `DecidableEq` instance is
built from it; it also models the SameValueZero key comparison of the
JavaScript `Map` backing the store, where key values are never `±0`). -/
def beqVal : JSValue → JSValue → Bool
  | .vUndefined, .vUndefined => true
  | .vNull, .vNull => true
  | .vNaN, .vNaN => true
  | .vBool a, .vBool b => a == b
  | .vNum a, .vNum b => a == b
  | .vStr a, .vStr b => a == b
  | .vArr a, .vArr b => beqValList a b
  | .vObj a, .vObj b => beqValFields a b
  | _, _ => false

/-- Element-wise equality of value lists. -/
def beqValList : List JSValue → List JSValue → Bool
  | [], [] => true
  | x :: xs, y :: ys => beqVal x y && beqValList xs ys
  | _, _ => false

/-- Element-wise equality of field lists. -/
def beqValFields : List (String × JSValue) → List (String × JSValue) → Bool
  | [], [] => true
  | (k, v) :: xs, (k2, v2) :: ys => k == k2 && beqVal v v2 && beqValFields xs ys
  | _, _ => false
end

mutual
theorem beqVal_iff : ∀ (a b : JSValue), beqVal a b = true ↔ a = b
  | .vUndefined, b => by cases b <;> simp [beqVal]
  | .vNull, b => by cases b <;> simp [beqVal]
  | .vNaN, b => by cases b <;> simp [beqVal]
  | .vBool a, b => by cases b <;> simp [beqVal]
  | .vNum a, b => by cases b <;> simp [beqVal]
  | .vStr a, b => by cases b <;> simp [beqVal]
  | .vArr a, b => by
      cases b <;> simp [beqVal]
      exact beqValList_iff a _
  | .vObj a, b => by
      cases b <;> simp [beqVal]
      exact beqValFields_iff a _

theorem beqValList_iff : ∀ (a b : List JSValue), beqValList a b = true ↔ a = b
  | [], b => by cases b <;> simp [beqValList]
  | x :: xs, [] => by simp [beqValList]
  | x :: xs, y :: ys => by
      simp [beqValList, Bool.and_eq_true, beqVal_iff x y, beqValList_iff xs ys]

theorem beqValFields_iff : ∀ (a b : List (String × JSValue)), beqValFields a b = true ↔ a = b
  | [], b => by cases b <;> simp [beqValFields]
  | x :: xs, [] => by simp [beqValFields]
  | (k, v) :: xs, (k2, v2) :: ys => by
      simp [beqValFields, Bool.and_eq_true, beqVal_iff v v2, beqValFields_iff xs ys,
        and_assoc]
end

instance : DecidableEq JSValue := fun a b =>
  decidable_of_iff (beqVal a b = true) (beqVal_iff a b)

/-- Property access `x?.k` (optional chaining, as used at index.js:646):
`undefined` on `null`/`undefined`/primitives, field lookup on objects.
Array properties other than element slots are never probed by the core. -/
def jsGet : JSValue → String → JSValue
  | .vObj fs, k => match fs.lookup k with
    | some v => v
    | none => .vUndefined
  | _, _ => .vUndefined

/-- JavaScript truthiness. -/
def jsTruthy : JSValue → Bool
  | .vUndefined => false
  | .vNull => false
  | .vNaN => false
  | .vBool b => b
  | .vNum n => n != 0
  | .vStr s => !s.isEmpty
  | .vArr _ => true
  | .vObj _ => true

/-- `x == null || x == undefined`, the test used by `??`. -/
def isNullish : JSValue → Bool
  | .vUndefined => true
  | .vNull => true
  | _ => false

/-- Nullish coalescing `a ?? b`. -/
def jsCoalesce (a b : JSValue) : JSValue := if isNullish a then b else a

/-- Logical or `a || b` (value-returning, truthiness-based). -/
def jsOr (a b : JSValue) : JSValue := if jsTruthy a then a else b

/-- `typeof x === 'object'` (true for `null`, arrays and objects). -/
def isObjType : JSValue → Bool
  | .vNull => true
  | .vArr _ => true
  | .vObj _ => true
  | _ => false

/-- `typeof x === 'string'`. -/
def isStrType : JSValue → Bool
  | .vStr _ => true
  | _ => false

mutual
/-- JavaScript string coercion, as used in the template literal at
index.js:654. -/
def jsToString : JSValue → String
  | .vUndefined => "undefined"
  | .vNull => "null"
  | .vNaN => "NaN"
  | .vBool b => if b then "true" else "false"
  | .vNum n => toString n
  | .vStr s => s
  | .vArr xs => jsToStringList xs
  | .vObj _ => "[object Object]"

/-- Array-to-string coercion: elements joined by commas. -/
def jsToStringList : List JSValue → String
  | [] => ""
  | [x] => jsToString x
  | x :: y :: rest => jsToString x ++ "," ++ jsToStringList (y :: rest)
end

/-- `new Date(x).getTime()` for the values that can reach it (only a
truthy `createdAt` does, index.js:657).  Numbers are epoch milliseconds;
booleans coerce through `valueOf`; date-string parsing is not modelled
(no verified claim exercises a string `createdAt`) and yields `vNaN`
like any other un-parseable input. -/
def dateGetTime : JSValue → JSValue
  | .vNum n => .vNum n
  | .vBool b => .vNum (if b then 1 else 0)
  | _ => .vNaN

end JSValue

open JSValue

/-- The canonical message record produced by `normalizeMessage`
(index.js:648 and 653-658).  Fields keep the `JSValue` type because the
source copies whatever value the probed key holds (`id` may even be the
literal `undefined` on the empty-bare-string path). -/
structure Message where
  id : JSValue
  userName : JSValue
  message : JSValue
  timestamp : JSValue
deriving Repr, DecidableEq

/-- `normalizeMessage` (index.js:645-659).  The two sources of
nondeterminism in the source — `Date.now()` and
`Math.random().toString(36).slice(2)` — are passed in as `now` and
`rand`.  Returns `none` for the source's `null` ("not a message"); the
function is total, modelling that `normalizeMessage` never throws. -/
def normalizeMessage (now : Int) (rand : String) (raw : JSValue) : Option Message :=
  let m := jsCoalesce (jsGet (jsGet raw "payload") "message")
           (jsCoalesce (jsGet (jsGet raw "data") "message")
           (jsCoalesce (jsGet raw "message")
           (jsCoalesce (jsGet raw "payload")
           (jsCoalesce (jsGet raw "data") raw))))
  if !jsTruthy m || (!isObjType m && !isStrType m) then
    if isStrType raw then
      some { id := .vUndefined, userName := .vStr "unknown", message := raw,
             timestamp := .vNum now }
    else
      none
  else
    let obj := match m with
      | .vStr s => .vObj [("message", .vStr s)]
      | v => v
    some {
      id := jsCoalesce (jsGet obj "id")
            (jsCoalesce (jsGet obj "messageId")
            (jsCoalesce (jsGet obj "pk")
            (jsCoalesce (jsGet obj "sk")
            (.vStr (jsToString (jsOr (jsGet obj "senderId")
                      (jsOr (jsGet obj "userName")
                      (jsOr (jsGet obj "username") (.vStr "user"))))
                    ++ "-"
                    ++ jsToString (jsOr (jsGet obj "createdAt")
                         (jsOr (jsGet obj "timestamp") (.vNum now)))
                    ++ "-" ++ rand)))))
      userName := jsCoalesce (jsGet obj "senderId")
                  (jsCoalesce (jsGet obj "userName")
                  (jsCoalesce (jsGet obj "username")
                  (jsCoalesce (jsGet obj "user")
                  (jsCoalesce (jsGet obj "author") (.vStr "unknown")))))
      message := jsCoalesce (jsGet obj "content")
                 (jsCoalesce (jsGet obj "message")
                 (jsCoalesce (jsGet obj "text")
                 (jsCoalesce (jsGet obj "body") (.vStr ""))))
      timestamp := if jsTruthy (jsGet obj "createdAt") then
                     dateGetTime (jsGet obj "createdAt")
                   else
                     jsCoalesce (jsGet obj "timestamp") (.vNum now) }

/-- `state.messages.has(i)` over the store modelled as its
insertion-ordered entry list. -/
def hasId (store : List Message) (i : JSValue) : Bool :=
  store.any fun x => x.id = i

/-- `renderMessage` (index.js:661-685): drops `null`/duplicate-id
messages, otherwise appends to the store (a JavaScript `Map` iterates in
insertion order).  The returned `Bool` records whether the message was
actually admitted — i.e. whether a "new message" reached the rendering
collaborator; the DOM append itself is cosmetic and elided. -/
def renderMessage (store : List Message) (msg : Option Message) :
    List Message × Bool :=
  match msg with
  | none => (store, false)
  | some m =>
    if hasId store m.id then (store, false)
    else (store ++ [m], true)

/-- The sort key of the comparator at index.js:693,
`(a.timestamp || 0) - (b.timestamp || 0)`: falsy timestamps (absent, 0,
NaN) key to 0.  A truthy non-numeric timestamp would make the
subtraction NaN, which ECMAScript's SortCompare treats as 0 (elements
compare equal); that is modelled by keying such values to 0 as well. -/
def tsKey (m : Message) : Int :=
  match jsOr m.timestamp (.vNum 0) with
  | .vNum n => n
  | _ => 0

/-- The comparator's ordering as a binary relation. -/
def tsLe (a b : Message) : Prop := tsKey a ≤ tsKey b

instance : DecidableRel tsLe := fun a b =>
  inferInstanceAs (Decidable (tsKey a ≤ tsKey b))

instance : IsTotal Message tsLe := ⟨fun a b => Int.le_total (tsKey a) (tsKey b)⟩

instance : IsTrans Message tsLe := ⟨fun _ _ _ h h2 => le_trans h h2⟩

/-- `renderInitialMessages` (index.js:687-695): map `normalizeMessage`
over the array (each call drawing fresh `now`/`rand`, supplied here by
`env` indexed by the element's position), drop the `null`s, stable-sort
ascending by timestamp, then `renderMessage` each in order.  ECMAScript
`Array.prototype.sort` is required to be stable, and a stable sort's
output is determined by the comparator, so it is modelled by
`List.insertionSort` (stable).  Non-array input is ignored (the
`Array.isArray` guard). -/
def renderInitialMessages (env : Nat → Int × String) (store : List Message)
    (messages : JSValue) : List Message :=
  match messages with
  | .vArr xs =>
    (List.insertionSort tsLe
        ((xs.enum.map fun p => normalizeMessage (env p.1).1 (env p.1).2 p.2).filterMap
          id)).foldl (fun s m => (renderMessage s (some m)).1) store
  | _ => store

/-- The WebSocket `message` handler (index.js:752-762), taking the frame
after the `JSON.parse` attempt (a frame that fails to parse stays a
`vStr`): a batch envelope (`data.messages` an array) has each entry
normalized and rendered in order; anything else is normalized and
rendered once.  `env` supplies the fresh `now`/`rand` of each
`normalizeMessage` call. -/
def wsOnMessage (env : Nat → Int × String) (store : List Message)
    (data : JSValue) : List Message :=
  match jsGet data "messages" with
  | .vArr xs =>
    ((xs.enum.map fun p => normalizeMessage (env p.1).1 (env p.1).2 p.2).filterMap
        id).foldl (fun s m => (renderMessage s (some m)).1) store
  | _ => (renderMessage store (normalizeMessage (env 0).1 (env 0).2 data)).1

/-- `state.wsBackoffMs` initial value (index.js:26). -/
def initialWsBackoffMs : Nat := 500

/-- `state.wsMaxBackoffMs` (index.js:27). -/
def wsMaxBackoffMs : Nat := 15000

/-- One failure step of the backoff (index.js:742 and 768):
`setTimeout(connectWebSocket, Math.min(state.wsBackoffMs *= 2, state.wsMaxBackoffMs))`.
The assignment `b *= 2` happens before `Math.min`, so the stored backoff
becomes `b * 2` and the scheduled delay is `min (b * 2) maxB`.  Returns
(new stored backoff, scheduled delay). -/
def wsFailureStep (b maxB : Nat) : Nat × Nat := (b * 2, min (b * 2) maxB)

/-- The `open` listener's backoff handling (index.js:748):
`state.wsBackoffMs = 500`, whatever the previous value. -/
def wsOpenReset (_b : Nat) : Nat := 500

/-- The scheduled delays of `n` consecutive connection failures starting
from stored backoff `b` (no intervening success). -/
def consecutiveFailureDelays : Nat → Nat → List Nat
  | _, 0 => []
  | b, Nat.succ n =>
    (wsFailureStep b wsMaxBackoffMs).2 ::
      consecutiveFailureDelays (wsFailureStep b wsMaxBackoffMs).1 n

/-- Falsiness of a nullable-string state field (`!state.wsUrl`,
`!state.token`): `null` (modelled `none`) and the empty string are
falsy. -/
def strFalsy : Option String → Bool
  | none => true
  | some s => s.isEmpty

/-- What one call of `connectWebSocket` (index.js:727-774) does before
any socket event arrives. -/
inductive ConnectOutcome where
  | missingConfig
  | retryScheduled (delayMs : Nat)
  | socketCreated
deriving Repr, DecidableEq

/-- `connectWebSocket` (index.js:727-744), up to attaching the socket
listeners.  With a falsy `wsUrl` or `token` it warns, shows the
"Missing WebSocket URL" status and returns — scheduling nothing, so no
retry can ever fire (index.js:728-732).  Otherwise it constructs the
socket; if the constructor throws (`ctorThrows`), a reconnect is
scheduled under the backoff policy (index.js:740-744), else the
listeners are attached.  Returns the outcome and the stored backoff
after the call. -/
def connectWebSocket (wsUrl token : Option String) (b maxB : Nat)
    (ctorThrows : Bool) : ConnectOutcome × Nat :=
  if strFalsy wsUrl || strFalsy token then
    (.missingConfig, b)
  else if ctorThrows then
    (.retryScheduled (wsFailureStep b maxB).2, (wsFailureStep b maxB).1)
  else
    (.socketCreated, b)

/-- The outbound request issued by `sendMessage`
(`postJSON('/addMessages', {senderId, content}, token)`,
index.js:886-889). -/
structure OutboundRequest where
  path : String
  senderId : Option String
  content : String
  token : String
deriving Repr, DecidableEq

/-- JavaScript `String.prototype.trim`, modelled over the character
list: leading and trailing whitespace is removed.  `Char.isWhitespace`
covers space, tab, CR and LF; the exotic Unicode space code points that
JavaScript also strips never occur in the verified claims. -/
def jsTrim (s : String) : String :=
  ⟨((s.data.dropWhile Char.isWhitespace).reverse.dropWhile
      Char.isWhitespace).reverse⟩

/-- `sendMessage` (index.js:877-900): trims the composer text; if the
trimmed text or the token is falsy it returns without doing anything;
otherwise it posts exactly one `/addMessages` request carrying
`state.username` and the text.  It never touches `state.messages` and
never calls `renderMessage`, so the store is returned unchanged on
every path. -/
def sendMessage (store : List Message) (token username : Option String)
    (inputValue : String) : List Message × Option OutboundRequest :=
  let text := jsTrim inputValue
  if text.isEmpty || strFalsy token then
    (store, none)
  else
    (store, some { path := "/addMessages", senderId := username, content := text,
                   token := token.getD "" })

/-- The mutable `state` fields (index.js:21-32) that the session-level
claims touch.  `pendingReconnect` models a scheduled `setTimeout`
reconnect, for the teardown semantics. -/
structure AppState where
  username : Option String
  token : Option String
  wsUrl : Option String
  messages : List Message
  pendingReconnect : Option Nat
deriving Repr, DecidableEq

/-- Modelled from the spec: `logout()` does not exist in src/ (the
client has no teardown path).  Per the spec's Session Coordinator
contract, it "tears down the Connection Manager and discards the
Session": the session fields are cleared and any pending reconnect
timer is cancelled.  The Store's content is not part of the Session. -/
def logout (st : AppState) : AppState :=
  { st with username := none, token := none, wsUrl := none,
            pendingReconnect := none }

/-- The continuation of the history fetch inside `handleLogin`
(index.js:846-858): on an ok response it runs
`renderInitialMessages(data.messages || [])` unconditionally — nothing
checks that the session that started the fetch is still active. -/
def onHistoryResponse (env : Nat → Int × String) (st : AppState) (ok : Bool)
    (data : JSValue) : AppState :=
  if ok then
    let arg := jsOr (jsGet data "messages") (.vArr [])
    { st with messages := renderInitialMessages env st.messages arg }
  else st

/-- Number of store entries whose `id` equals `i`. -/
def countId (store : List Message) (i : JSValue) : Nat :=
  (store.filter fun x => x.id = i).length

/-- The normalization stage of `renderInitialMessages`
(`messages.map(normalizeMessage).filter(Boolean)`, index.js:690-692). -/
def normalizedBatch (env : Nat → Int × String) (xs : List JSValue) :
    List Message :=
  (xs.enum.map fun p => normalizeMessage (env p.1).1 (env p.1).2 p.2).filterMap id

/-- An input value that is neither an object (in the loose sense that
includes arrays, but not `null`) nor a string: the shapes the spec's
rejection clause is about. -/
def notObjNotStr : JSValue → Bool
  | .vNull => true
  | .vUndefined => true
  | .vNaN => true
  | .vBool _ => true
  | .vNum _ => true
  | _ => false

/-- A well-formed single inbound frame carrying an explicit id, sender,
content and timestamp. -/
def inboundFrame (i u body : String) (t : Int) : JSValue :=
  .vObj [("id", .vStr i), ("senderId", .vStr u), ("content", .vStr body),
         ("createdAt", .vNum t)]

/-- The spec's chronology example: a history batch whose timestamps
arrive as [300, 100, 200]. -/
def batchOutOfOrder : JSValue :=
  .vArr [.vObj [("id", .vStr "x"), ("content", .vStr "c1"), ("createdAt", .vNum 300)],
         .vObj [("id", .vStr "y"), ("content", .vStr "c2"), ("createdAt", .vNum 100)],
         .vObj [("id", .vStr "z"), ("content", .vStr "c3"), ("createdAt", .vNum 200)]]

/-- A history batch with a timestamp tie between its second and third
entries (ids y and z), to exhibit stability concretely. -/
def batchWithTie : JSValue :=
  .vArr [.vObj [("id", .vStr "x"), ("content", .vStr "c1"), ("createdAt", .vNum 300)],
         .vObj [("id", .vStr "y"), ("content", .vStr "c2"), ("createdAt", .vNum 100)],
         .vObj [("id", .vStr "z"), ("content", .vStr "c3"), ("createdAt", .vNum 100)]]

/-! ## Auxiliary lemmas -/

theorem countId_append (s t : List Message) (i : JSValue) :
    countId (s ++ t) i = countId s i + countId t i := by
  simp [countId, List.filter_append]

theorem countId_eq_zero (store : List Message) (i : JSValue)
    (h : hasId store i = false) : countId store i = 0 := by
  induction store with
  | nil => rfl
  | cons x xs ih =>
    simp only [hasId, List.any_cons, Bool.or_eq_false_iff] at h
    simp only [countId, List.filter_cons, h.1]
    exact ih h.2

/-! ## Claim theorems -/

/-- C1, counterexample: starting from the initial state, the first five
scheduled reconnect delays are not 500, 1000, 2000, 4000, 8000 — the
stored backoff is doubled before it is first used
(`state.wsBackoffMs *= 2` inside `Math.min`, index.js:768), so the
first scheduled delay is already 1000. -/
theorem backoff_delays_differ_from_spec :
    consecutiveFailureDelays initialWsBackoffMs 5 ≠ [500, 1000, 2000, 4000, 8000] := by
  decide

/-- C1, amended: five consecutive failures schedule delays 1000, 2000,
4000, 8000, 15000; a sixth failure again schedules the 15000 ceiling
(every scheduled delay is capped at `wsMaxBackoffMs`); a success stores
the 500 floor again, so the delay scheduled by the next failure is
1000. -/
theorem backoff_growth_cap_reset :
    consecutiveFailureDelays initialWsBackoffMs 5 = [1000, 2000, 4000, 8000, 15000]
    ∧ consecutiveFailureDelays initialWsBackoffMs 6 =
        [1000, 2000, 4000, 8000, 15000, 15000]
    ∧ (∀ b, wsOpenReset b = initialWsBackoffMs)
    ∧ (∀ b, consecutiveFailureDelays (wsOpenReset b) 1 = [1000])
    ∧ (∀ b maxB, (wsFailureStep b maxB).2 ≤ maxB) :=
  ⟨by decide, by decide, fun _ => rfl,
   fun _ => by simp only [wsOpenReset]; decide,
   fun _ maxB => Nat.min_le_right _ maxB⟩

/-- C9: a falsy (absent or empty) channel endpoint or credential makes
`connectWebSocket` surface the missing-configuration status and return
at once: the stored backoff is untouched and nothing is scheduled, so
no retry can ever fire. -/
theorem missing_config_no_retry (wsUrl token : Option String) (b maxB : Nat)
    (ctorThrows : Bool) (h : (strFalsy wsUrl || strFalsy token) = true) :
    connectWebSocket wsUrl token b maxB ctorThrows = (.missingConfig, b)
    ∧ ∀ d, (connectWebSocket wsUrl token b maxB ctorThrows).1 ≠ .retryScheduled d := by
  constructor
  · simp [connectWebSocket, h]
  · intro d
    simp [connectWebSocket, h]

/-- Witness for C9 at a concrete missing endpoint. -/
theorem missing_config_no_retry_app :
    connectWebSocket none (some "tok") 500 15000 true = (.missingConfig, 500) :=
  (missing_config_no_retry none (some "tok") 500 15000 true (by decide)).1

/-- C2, code bug: `logout()` does not exist in src/ (teardown is
modelled from the spec), and the history-fetch continuation inside
`handleLogin` (index.js:852-854) calls `renderInitialMessages`
unconditionally, without re-checking the session.  Evaluated at the
failing execution — teardown happens while the fetch is in flight —
the fetched message is admitted to the Store after teardown, which the
claim forbids. -/
theorem stale_history_admitted_after_logout :
    (onHistoryResponse (fun _ => (0, "r"))
        (logout { username := some "alice", token := some "tok",
                  wsUrl := some "w", messages := [], pendingReconnect := some 1000 })
        true
        (.vObj [("messages",
          .vArr [.vObj [("id", .vStr "m1"), ("senderId", .vStr "bob"),
                        ("content", .vStr "hello"), ("createdAt", .vNum 5)]])])).messages =
      [{ id := .vStr "m1", userName := .vStr "bob", message := .vStr "hello",
         timestamp := .vNum 5 }] := by
  decide

/-- C3: admitting a message a second time is a no-op; a double admit
starting from a store without that id leaves exactly one entry with it;
and a message whose id is already present is neither stored nor
rendered (the store and the rendered flag are unchanged/false). -/
theorem admission_idempotent (store : List Message) (m m2 : Message) :
    ((renderMessage ((renderMessage store (some m)).1) (some m)).1 =
        (renderMessage store (some m)).1)
    ∧ (hasId store m.id = false →
        countId ((renderMessage ((renderMessage store (some m)).1) (some m)).1)
          m.id = 1)
    ∧ (hasId store m2.id = true → renderMessage store (some m2) = (store, false)) := by
  have hApp : hasId (store ++ [m]) m.id = true := by
    simp [hasId, List.any_append]
  refine ⟨?_, ?_, ?_⟩
  · by_cases h : hasId store m.id = true
    · simp [renderMessage, h]
    · have h' : hasId store m.id = false := by simpa using h
      simp [renderMessage, h', hApp]
  · intro h'
    have h1 : (renderMessage store (some m)).1 = store ++ [m] := by
      simp [renderMessage, h']
    rw [h1]
    simp only [renderMessage, hApp, if_pos]
    rw [countId_append, countId_eq_zero store m.id h']
    simp [countId]
  · intro h
    simp [renderMessage, h]

/-- Witness for C3 at a concrete message and stores. -/
theorem admission_idempotent_app :
    countId ((renderMessage ((renderMessage []
        (some { id := JSValue.vStr "w3", userName := JSValue.vStr "u",
                message := JSValue.vStr "b", timestamp := JSValue.vNum 1 })).1)
        (some { id := JSValue.vStr "w3", userName := JSValue.vStr "u",
                message := JSValue.vStr "b", timestamp := JSValue.vNum 1 })).1)
      (JSValue.vStr "w3") = 1
    ∧ renderMessage
        [{ id := JSValue.vStr "w3", userName := JSValue.vStr "u",
           message := JSValue.vStr "b", timestamp := JSValue.vNum 1 }]
        (some { id := JSValue.vStr "w3", userName := JSValue.vStr "u",
                message := JSValue.vStr "b", timestamp := JSValue.vNum 1 }) =
      ([{ id := JSValue.vStr "w3", userName := JSValue.vStr "u",
          message := JSValue.vStr "b", timestamp := JSValue.vNum 1 }], false) :=
  ⟨(admission_idempotent []
      { id := JSValue.vStr "w3", userName := JSValue.vStr "u",
        message := JSValue.vStr "b", timestamp := JSValue.vNum 1 }
      { id := JSValue.vStr "w3", userName := JSValue.vStr "u",
        message := JSValue.vStr "b", timestamp := JSValue.vNum 1 }).2.1 (by decide),
   (admission_idempotent
      [{ id := JSValue.vStr "w3", userName := JSValue.vStr "u",
         message := JSValue.vStr "b", timestamp := JSValue.vNum 1 }]
      { id := JSValue.vStr "w3", userName := JSValue.vStr "u",
        message := JSValue.vStr "b", timestamp := JSValue.vNum 1 }
      { id := JSValue.vStr "w3", userName := JSValue.vStr "u",
        message := JSValue.vStr "b", timestamp := JSValue.vNum 1 }).2.2 (by decide)⟩

/-- C10, counterexample: the non-empty bare string "hi" does not
normalize to a message with undefined id — a truthy bare string is
wrapped as `{message: s}` (index.js:651) and receives the synthesized
id, so the claim's premise fails already at its first conjunct. -/
theorem bare_string_id_synthesized :
    (normalizeMessage 0 "r" (.vStr "hi")).map Message.id = some (.vStr "user-0-r")
    ∧ (normalizeMessage 0 "r" (.vStr "hi")).map Message.id ≠
        some JSValue.vUndefined := by
  constructor
  · decide
  · decide

/-- C10, amended: only the empty bare string takes the early-return
path of index.js:648 and gets an undefined id; a non-empty bare string
gets the synthesized id `user-<now>-<rand>`; and once one
empty-bare-string message has been admitted, any later message
normalized from an empty bare string has the same undefined id and is
neither stored nor rendered again. -/
theorem empty_bare_string_dedup :
    (∀ (now : Int) (rand : String),
      normalizeMessage now rand (.vStr "") =
        some { id := .vUndefined, userName := .vStr "unknown",
               message := .vStr "", timestamp := .vNum now })
    ∧ (∀ (now : Int) (rand s : String), s.isEmpty = false →
        (normalizeMessage now rand (.vStr s)).map Message.id =
          some (.vStr ("user-" ++ toString now ++ "-" ++ rand)))
    ∧ (∀ (store : List Message) (now now2 : Int) (rand rand2 : String),
        renderMessage ((renderMessage store (normalizeMessage now rand (.vStr ""))).1)
            (normalizeMessage now2 rand2 (.vStr "")) =
          ((renderMessage store (normalizeMessage now rand (.vStr ""))).1, false)) := by
  refine ⟨fun now rand => rfl, ?_, ?_⟩
  · intro now rand s hs
    simp [normalizeMessage, jsGet, jsCoalesce, isNullish, jsTruthy, jsOr,
      isObjType, isStrType, jsToString, List.lookup, hs]
  · intro store now now2 rand rand2
    have h1 : normalizeMessage now rand (.vStr "") =
        some { id := .vUndefined, userName := .vStr "unknown",
               message := .vStr "", timestamp := .vNum now } := rfl
    have h2 : normalizeMessage now2 rand2 (.vStr "") =
        some { id := .vUndefined, userName := .vStr "unknown",
               message := .vStr "", timestamp := .vNum now2 } := rfl
    rw [h1, h2]
    by_cases hmem : hasId store JSValue.vUndefined = true
    · simp [renderMessage, hmem]
    · have h' : hasId store JSValue.vUndefined = false := by simpa using hmem
      have hApp : hasId (store ++
          [{ id := JSValue.vUndefined, userName := JSValue.vStr "unknown",
             message := JSValue.vStr "", timestamp := JSValue.vNum now }])
          JSValue.vUndefined = true := by
        simp [hasId, List.any_append]
      simp [renderMessage, h', hApp]

/-- Witness for C10's amended claim at a concrete non-empty string. -/
theorem empty_bare_string_dedup_app :
    (normalizeMessage 7 "zz" (.vStr "q")).map Message.id =
      some (.vStr ("user-" ++ toString (7 : Int) ++ "-" ++ "zz")) :=
  empty_bare_string_dedup.2.1 7 "zz" "q" (by decide)

/-- C4: `renderInitialMessages` folds admission over the stable
ascending sort of the normalized batch; the sorted batch is sorted by
timestamp key and a permutation of the normalized input; the sort is
stable (any correctly-ordered pair of the input survives as a sublist);
and on the concrete batch with timestamps [300, 100, 200] the admitted
store iterates as [100, 200, 300], while a tie between the second and
third entries keeps their input order. -/
theorem bulk_load_chronological :
    (∀ (env : Nat → Int × String) (store : List Message) (xs : List JSValue),
      renderInitialMessages env store (.vArr xs) =
        (List.insertionSort tsLe (normalizedBatch env xs)).foldl
          (fun s m => (renderMessage s (some m)).1) store)
    ∧ (∀ (env : Nat → Int × String) (xs : List JSValue),
        List.Sorted tsLe (List.insertionSort tsLe (normalizedBatch env xs)))
    ∧ (∀ (env : Nat → Int × String) (xs : List JSValue),
        List.Perm (List.insertionSort tsLe (normalizedBatch env xs))
          (normalizedBatch env xs))
    ∧ (∀ (a b : Message) (l : List Message), tsLe a b → List.Sublist [a, b] l →
        List.Sublist [a, b] (List.insertionSort tsLe l))
    ∧ (renderInitialMessages (fun _ => (0, "r")) [] batchOutOfOrder).map tsKey =
        [100, 200, 300]
    ∧ (renderInitialMessages (fun _ => (0, "r")) [] batchWithTie).map Message.id =
        [JSValue.vStr "y", JSValue.vStr "z", JSValue.vStr "x"] :=
  ⟨fun _ _ _ => rfl,
   fun _ xs => List.sorted_insertionSort tsLe _,
   fun _ xs => List.perm_insertionSort tsLe _,
   fun _ _ _ hab h => List.pair_sublist_insertionSort hab h,
   by decide, by decide⟩

/-- Witness for C4's stability conjunct at a concrete tied pair. -/
theorem bulk_load_chronological_app :
    List.Sublist
      [{ id := JSValue.vStr "y", userName := JSValue.vStr "u",
         message := JSValue.vStr "b1", timestamp := JSValue.vNum 100 },
       { id := JSValue.vStr "z", userName := JSValue.vStr "u",
         message := JSValue.vStr "b2", timestamp := JSValue.vNum 100 }]
      (List.insertionSort tsLe
        [{ id := JSValue.vStr "y", userName := JSValue.vStr "u",
           message := JSValue.vStr "b1", timestamp := JSValue.vNum 100 },
         { id := JSValue.vStr "z", userName := JSValue.vStr "u",
           message := JSValue.vStr "b2", timestamp := JSValue.vNum 100 }]) :=
  bulk_load_chronological.2.2.2.1 _ _ _ (by decide) (List.Sublist.refl _)

/-- C5: the three tolerance inputs each normalize to a message whose
body is "hi" (the first also keeps author "a"; the second unwraps its
`message` field as a bare string, so its author falls back to the
sentinel); the bare string "hi" normalizes with the sentinel author and
the current local time as timestamp. -/
theorem normalizer_tolerance (now : Int) (rand : String) (T : Int) :
    ((normalizeMessage now rand (.vObj [("senderId", .vStr "a"),
        ("content", .vStr "hi"), ("createdAt", .vNum T)])).map
          fun m => (m.userName, m.message)) = some (.vStr "a", .vStr "hi")
    ∧ ((normalizeMessage now rand (.vObj [("userName", .vStr "a"),
        ("message", .vStr "hi"), ("timestamp", .vNum T)])).map
          fun m => (m.userName, m.message)) = some (.vStr "unknown", .vStr "hi")
    ∧ normalizeMessage now rand (.vStr "hi") =
        some { id := .vStr ("user-" ++ toString now ++ "-" ++ rand),
               userName := .vStr "unknown", message := .vStr "hi",
               timestamp := .vNum now } :=
  ⟨rfl, rfl, rfl⟩

/-- C6: `null`, `42` and `undefined` each yield "not a message", and so
does every input that is neither an object nor a string; the embedded
normalizer is a total function, modelling that the source never throws
on malformed input. -/
theorem normalizer_rejection (now : Int) (rand : String) :
    normalizeMessage now rand .vNull = none
    ∧ normalizeMessage now rand (.vNum 42) = none
    ∧ normalizeMessage now rand .vUndefined = none
    ∧ ∀ v, notObjNotStr v = true → normalizeMessage now rand v = none := by
  refine ⟨rfl, rfl, rfl, ?_⟩
  intro v hv
  cases v <;> simp_all [notObjNotStr, normalizeMessage, jsGet, jsCoalesce,
    isNullish, jsTruthy, isObjType, isStrType]

/-- Witness for C6's generic rejection conjunct at a boolean input. -/
theorem normalizer_rejection_app :
    normalizeMessage 0 "" (.vBool true) = none :=
  (normalizer_rejection 0 "").2.2.2 (.vBool true) (by decide)

/-- C7: `sendMessage` never changes the store on any path (and never
calls `renderMessage`, so no "new message" reaches the rendering
collaborator); the store changes only when an inbound frame with that
content arrives and is admitted by the WebSocket message handler. -/
theorem no_local_echo :
    (∀ (store : List Message) (token username : Option String) (input : String),
      (sendMessage store token username input).1 = store)
    ∧ (∀ (env : Nat → Int × String) (store : List Message) (i u body : String)
        (t : Int), t ≠ 0 → hasId store (.vStr i) = false →
        wsOnMessage env store (inboundFrame i u body t) =
          store ++ [{ id := .vStr i, userName := .vStr u, message := .vStr body,
                      timestamp := .vNum t }]) := by
  constructor
  · intro store token username input
    simp only [sendMessage]
    split <;> rfl
  · intro env store i u body t ht hid
    have hT : ((t : Int) != 0) = true := by simpa using ht
    simp [wsOnMessage, inboundFrame, normalizeMessage, jsGet, jsCoalesce,
      isNullish, jsTruthy, isObjType, isStrType, dateGetTime, renderMessage,
      List.lookup, hT, hid]

/-- Witness for C7's inbound-frame conjunct at a concrete frame. -/
theorem no_local_echo_app :
    wsOnMessage (fun _ => (0, "r")) [] (inboundFrame "m1" "u" "hello" 5) =
      [] ++ [{ id := JSValue.vStr "m1", userName := JSValue.vStr "u",
               message := JSValue.vStr "hello", timestamp := JSValue.vNum 5 }] :=
  no_local_echo.2 (fun _ => (0, "r")) [] "m1" "u" "hello" 5 (by decide) (by decide)

/-- C8: `sendMessage` is a no-op exactly when the trimmed body or the
token is falsy; otherwise it issues exactly one outbound `/addMessages`
request carrying the current identity and the trimmed body. -/
theorem send_requires_text_and_session (store : List Message)
    (token username : Option String) (input : String) :
    (((jsTrim input).isEmpty || strFalsy token) = true →
      sendMessage store token username input = (store, none))
    ∧ (((jsTrim input).isEmpty || strFalsy token) = false →
      sendMessage store token username input =
        (store, some { path := "/addMessages", senderId := username,
                       content := jsTrim input, token := token.getD "" })) := by
  constructor <;> intro h <;> simp [sendMessage, h]

/-- Witness for C8 covering both the rejection and the send path. -/
theorem send_requires_text_and_session_app :
    sendMessage [] none none "   " = ([], none)
    ∧ sendMessage [] (some "tok") (some "alice") " hi " =
        ([], some { path := "/addMessages", senderId := some "alice",
                    content := jsTrim " hi ", token := "tok" }) :=
  ⟨(send_requires_text_and_session [] none none "   ").1 (by decide),
   (send_requires_text_and_session [] (some "tok") (some "alice") " hi ").2
     (by decide)⟩
